import Mathlib

/-!
Shallow embedding of src/vulkan/vulkan_application.cc.

Vulkan handles (VkInstance, VkPhysicalDevice) are modelled as natural
numbers, with 0 standing for VK_NULL_HANDLE.  The calls the class makes
into the loaded API (vk.CreateInstance, vk.SetupInstanceProcAddresses,
vk.EnumeratePhysicalDevices), the process-wide debugging toggle, and the
validity oracles of the external collaborators VulkanDebugReport and
VulkanDevice are modelled as an environment record `VulkanEnv`.
-/

namespace vulkan

/-- A Vulkan native handle; 0 models VK_NULL_HANDLE. -/
abbrev Handle := Nat

/-- Modelled from the spec: the Scoped Handle (`VulkanHandle`) of section
4.2 is not under src/.  It stores an opaque handle with a release function
supplied at construction; the default-constructed state holds the null
sentinel.  We keep only the handle; the releaser call count is derived by
`destroyCalls`. -/
structure VulkanHandle where
  handle : Handle
deriving DecidableEq, Repr

/-- The default-constructed Scoped Handle holding the null sentinel. -/
def nullHandle : VulkanHandle := ⟨0⟩

/-- Modelled from the spec: `ReleaseOwnership()` returns the raw handle to
the caller and clears internal state so destruction becomes a no-op. -/
def VulkanHandle.ReleaseOwnership (h : VulkanHandle) : Handle × VulkanHandle :=
  (h.handle, ⟨0⟩)

/-- Modelled from the spec: number of releaser invocations the destructor
performs — one if a non-null handle is still held, zero otherwise. -/
def VulkanHandle.destroyCalls (h : VulkanHandle) : Nat :=
  if h.handle = 0 then 0 else 1

/-- The environment a `VulkanApplication` runs against: the loaded proc
table, the process-wide debug toggle, and the collaborator oracles.
`createInstance` receives the extension list from the create-info and
returns `some inst` on VK_SUCCESS, `none` otherwise.  `enumerate1` is the
count-query enumeration call (`some count` on VK_SUCCESS), `enumerate2 n`
is the fill call given a buffer of size `n`, returning the handles the
driver wrote (ordered) on VK_SUCCESS. -/
structure VulkanEnv where
  createInstance : List String → Option Handle
  setupInstanceProcAddresses : Handle → Bool
  debuggingEnabled : Bool
  debugExtensionSupported : Bool
  debugReportValid : Bool
  enumerate1 : Option Nat
  enumerate2 : Nat → Option (List Handle)
  deviceValid : Handle → Bool

/-- The fixed debug extension name (`VulkanDebugReport::DebugExtensionName`). -/
def DebugExtensionName : String := "VK_EXT_debug_report"

/-- Line 25-26: `IsDebuggingEnabled() && VulkanDebugReport::DebugExtensionSupported(vk)`. -/
def enable_instance_debugging (env : VulkanEnv) : Bool :=
  env.debuggingEnabled && env.debugExtensionSupported

/-- Lines 30-32: if instance debugging is enabled, the debug extension name
is appended (`emplace_back`) to the caller-requested extension list. -/
def effectiveExtensions (env : VulkanEnv) (enabled_extensions : List String) :
    List String :=
  if enable_instance_debugging env then
    enabled_extensions ++ [DebugExtensionName]
  else
    enabled_extensions

/-- The observable state of a constructed `VulkanApplication`: the members
`api_version_`, `valid_`, `instance_` and whether `debug_report_` holds a
retained attachment. -/
structure VulkanApplication where
  api_version_ : Nat
  valid_ : Bool
  instance_ : VulkanHandle
  debug_report_ : Bool
deriving DecidableEq, Repr

/-- The constructor, lines 16-106: compute the effective extension list,
call `vk.CreateInstance` (on failure return invalid with the member
defaults), then `vk.SetupInstanceProcAddresses` (on failure return invalid
without wrapping the created instance in the Scoped Handle), then wrap the
instance, optionally attach the debug report (retained only when it is
valid; its failure is logged and discarded), and mark the builder valid. -/
def VulkanApplication.create (env : VulkanEnv) (application_name : String)
    (enabled_extensions : List String)
    (application_version api_version : Nat) : VulkanApplication :=
  match env.createInstance (effectiveExtensions env enabled_extensions) with
  | none =>
      { api_version_ := api_version, valid_ := false,
        instance_ := nullHandle, debug_report_ := false }
  | some inst =>
      if env.setupInstanceProcAddresses inst then
        { api_version_ := api_version, valid_ := true,
          instance_ := ⟨inst⟩,
          debug_report_ := enable_instance_debugging env && env.debugReportValid }
      else
        { api_version_ := api_version, valid_ := false,
          instance_ := nullHandle, debug_report_ := false }

/-- Lines 110-112. -/
def VulkanApplication.IsValid (app : VulkanApplication) : Bool :=
  app.valid_

/-- Lines 114-116. -/
def VulkanApplication.GetAPIVersion (app : VulkanApplication) : Nat :=
  app.api_version_

/-- Lines 118-120. -/
def VulkanApplication.GetInstance (app : VulkanApplication) : VulkanHandle :=
  app.instance_

/-- Lines 122-124: forwards to the Scoped Handle's `ReleaseOwnership`
(the returned raw handle is dropped by this method). -/
def VulkanApplication.ReleaseInstanceOwnership (app : VulkanApplication) :
    VulkanApplication :=
  { app with instance_ := (app.instance_.ReleaseOwnership).2 }

/-- Lines 126-155, instrumented with the number of
`vk.EnumeratePhysicalDevices` calls made.  The buffer resized to
`device_count` keeps that length: the fill call writes at most
`device_count` handles and untouched slots stay value-initialized (0). -/
def VulkanApplication.GetPhysicalDevicesTraced (app : VulkanApplication)
    (env : VulkanEnv) : List Handle × Nat :=
  if !app.IsValid then ([], 0)
  else
    match env.enumerate1 with
    | none => ([], 1)
    | some device_count =>
      if device_count = 0 then ([], 1)
      else
        match env.enumerate2 device_count with
        | none => ([], 2)
        | some written =>
          (written.take device_count ++
             List.replicate (device_count - written.length) 0, 2)

/-- Lines 126-155: the returned vector of physical devices. -/
def VulkanApplication.GetPhysicalDevices (app : VulkanApplication)
    (env : VulkanEnv) : List Handle :=
  (app.GetPhysicalDevicesTraced env).1

/-- Lines 157-167, as a loop over the device list: returns the first handle
whose `VulkanDevice` is valid together with the list of handles for which a
`VulkanDevice` was constructed, in order. -/
def acquireLoop (env : VulkanEnv) : List Handle → Option Handle × List Handle
  | [] => (none, [])
  | d :: rest =>
    if env.deviceValid d then (some d, [d])
    else
      let r := acquireLoop env rest
      (r.1, d :: r.2)

/-- Lines 157-167: result of `AcquireFirstCompatibleLogicalDevice`. -/
def VulkanApplication.AcquireFirstCompatibleLogicalDevice
    (app : VulkanApplication) (env : VulkanEnv) : Option Handle :=
  (acquireLoop env (app.GetPhysicalDevices env)).1

/-- The handles for which the selector constructed a `VulkanDevice`. -/
def VulkanApplication.AcquireConstructedDevices (app : VulkanApplication)
    (env : VulkanEnv) : List Handle :=
  (acquireLoop env (app.GetPhysicalDevices env)).2

/-- Iterated ownership transfer: the raw handles successive
`ReleaseOwnership` calls hand out, and the Scoped Handle left behind. -/
def transferSeq (h : VulkanHandle) : Nat → List Handle × VulkanHandle
  | 0 => ([], h)
  | n + 1 =>
    let p := h.ReleaseOwnership
    let q := transferSeq p.2 n
    (p.1 :: q.1, q.2)

/-- Total release calls on the underlying resource across `k` ownership
transfers followed by destruction: the external owner releases each
non-null raw handle it received exactly once, and the builder's destructor
releases whatever the Scoped Handle still holds. -/
def totalReleases (h : VulkanHandle) (k : Nat) : Nat :=
  ((transferSeq h k).1.filter (fun r => r != 0)).length +
    ((transferSeq h k).2).destroyCalls

/-! Sample environments used by the closed witness theorems. -/

/-- An environment where every call succeeds: instance handle 7, three
physical devices 10, 20, 30, of which only 20 yields a valid
`VulkanDevice`; debugging on and supported but the debug report fails. -/
def envOk : VulkanEnv :=
  { createInstance := fun _ => some 7,
    setupInstanceProcAddresses := fun _ => true,
    debuggingEnabled := true,
    debugExtensionSupported := true,
    debugReportValid := false,
    enumerate1 := some 3,
    enumerate2 := fun _ => some [10, 20, 30],
    deviceValid := fun d => d == 20 }

/-- Like `envOk` but `vkCreateInstance` fails. -/
def envCreateFail : VulkanEnv :=
  { envOk with createInstance := fun _ => none }

/-- Like `envOk` but instance proc-address resolution fails. -/
def envProcFail : VulkanEnv :=
  { envOk with setupInstanceProcAddresses := fun _ => false }

/-- Like `envOk` but the debug toggle is off. -/
def envNoDebug : VulkanEnv :=
  { envOk with debuggingEnabled := false }

/-- Like `envOk` but the fill enumeration call writes only two handles
(and would set the count variable to 2) after the count call reported 3. -/
def envMismatch : VulkanEnv :=
  { envOk with enumerate2 := fun _ => some [10, 20] }

/-- Helper: on instance-creation failure every member keeps its default. -/
theorem create_eq_of_createFail (env : VulkanEnv) (name : String)
    (exts : List String) (appv apiv : Nat)
    (h : env.createInstance (effectiveExtensions env exts) = none) :
    VulkanApplication.create env name exts appv apiv =
      { api_version_ := apiv, valid_ := false,
        instance_ := nullHandle, debug_report_ := false } := by
  simp [VulkanApplication.create, h]

/-- Helper: on the full success path the builder is valid, wraps the
created instance, and retains the debug report exactly when instance
debugging is on and the attachment is valid. -/
theorem create_eq_of_success (env : VulkanEnv) (name : String)
    (exts : List String) (appv apiv : Nat) (i : Handle)
    (h : env.createInstance (effectiveExtensions env exts) = some i)
    (hs : env.setupInstanceProcAddresses i = true) :
    VulkanApplication.create env name exts appv apiv =
      { api_version_ := apiv, valid_ := true, instance_ := ⟨i⟩,
        debug_report_ :=
          enable_instance_debugging env && env.debugReportValid } := by
  simp [VulkanApplication.create, h, hs]

/-- Helper: on proc-address-resolution failure every member keeps its
default; in particular the created instance is not wrapped. -/
theorem create_eq_of_procFail (env : VulkanEnv) (name : String)
    (exts : List String) (appv apiv : Nat) (i : Handle)
    (h : env.createInstance (effectiveExtensions env exts) = some i)
    (hs : env.setupInstanceProcAddresses i = false) :
    VulkanApplication.create env name exts appv apiv =
      { api_version_ := apiv, valid_ := false,
        instance_ := nullHandle, debug_report_ := false } := by
  simp [VulkanApplication.create, h, hs]

/-- C1: for every construction, `IsValid()` is true iff both the
instance-creation call and the instance-level proc-address resolution
succeed; whenever `IsValid()` is false, `GetInstance()` holds the null
handle. -/
theorem create_isValid_iff (env : VulkanEnv) (name : String)
    (exts : List String) (appv apiv : Nat) :
    ((VulkanApplication.create env name exts appv apiv).IsValid = true ↔
      ∃ i, env.createInstance (effectiveExtensions env exts) = some i ∧
        env.setupInstanceProcAddresses i = true)
    ∧ ((VulkanApplication.create env name exts appv apiv).IsValid = false →
      (VulkanApplication.create env name exts appv apiv).GetInstance =
        nullHandle) := by
  cases h : env.createInstance (effectiveExtensions env exts) with
  | none =>
    rw [create_eq_of_createFail env name exts appv apiv h]
    refine ⟨⟨fun hc => absurd hc (by simp [VulkanApplication.IsValid]),
      fun ⟨j, hj, _⟩ => by simp at hj⟩, fun _ => rfl⟩
  | some i =>
    by_cases hs : env.setupInstanceProcAddresses i
    · rw [create_eq_of_success env name exts appv apiv i h hs]
      refine ⟨⟨fun _ => ⟨i, rfl, hs⟩, fun _ => rfl⟩, fun hfalse => ?_⟩
      exact absurd hfalse (by simp [VulkanApplication.IsValid])
    · have hs' : env.setupInstanceProcAddresses i = false := by
        simpa using hs
      rw [create_eq_of_procFail env name exts appv apiv i h hs']
      refine ⟨⟨fun hc => absurd hc (by simp [VulkanApplication.IsValid]),
        fun ⟨j, hj, hsj⟩ => ?_⟩, fun _ => rfl⟩
      obtain rfl : i = j := Option.some.inj hj
      exact absurd hsj (by simp [hs'])

/-- C1 witness: with a failing create-instance call the builder is invalid
and `GetInstance()` is the null handle. -/
theorem create_isValid_iff_witness :
    (VulkanApplication.create envCreateFail "app" [] 1 2).GetInstance =
      nullHandle :=
  (create_isValid_iff envCreateFail "app" [] 1 2).2 rfl

/-- C9: `GetAPIVersion()` returns exactly the api_version passed at
construction, in every state: valid or invalid, before or after ownership
transfer. -/
theorem getAPIVersion_stable (env : VulkanEnv) (name : String)
    (exts : List String) (appv apiv : Nat) :
    (VulkanApplication.create env name exts appv apiv).GetAPIVersion = apiv
    ∧ ((VulkanApplication.create env name exts appv
          apiv).ReleaseInstanceOwnership).GetAPIVersion = apiv := by
  cases h : env.createInstance (effectiveExtensions env exts) with
  | none =>
    simp [VulkanApplication.create, VulkanApplication.GetAPIVersion,
      VulkanApplication.ReleaseInstanceOwnership, h]
  | some i =>
    by_cases hs : env.setupInstanceProcAddresses i <;>
      simp [VulkanApplication.create, VulkanApplication.GetAPIVersion,
        VulkanApplication.ReleaseInstanceOwnership, h, hs]

/-- C9 witness: concrete construction returns the requested api version,
also after ownership transfer. -/
theorem getAPIVersion_stable_witness :
    (VulkanApplication.create envOk "app" [] 1 2).GetAPIVersion = 2
    ∧ ((VulkanApplication.create envOk "app" [] 1
          2).ReleaseInstanceOwnership).GetAPIVersion = 2 :=
  getAPIVersion_stable envOk "app" [] 1 2

/-- C8: the debug extension name is appended to the end of the requested
extension list iff the process-wide debug toggle is on and the debug
extension is supported; otherwise the list is passed through unchanged. -/
theorem extensions_append_iff (env : VulkanEnv) (exts : List String) :
    (effectiveExtensions env exts = exts ++ [DebugExtensionName] ↔
      env.debuggingEnabled = true ∧ env.debugExtensionSupported = true)
    ∧ (¬(env.debuggingEnabled = true ∧ env.debugExtensionSupported = true) →
      effectiveExtensions env exts = exts) := by
  by_cases hd : enable_instance_debugging env = true
  · have hsplit : env.debuggingEnabled = true ∧
        env.debugExtensionSupported = true := by
      simpa [enable_instance_debugging, Bool.and_eq_true] using hd
    constructor
    · simp [effectiveExtensions, hd, hsplit]
    · intro hcon
      exact absurd hsplit hcon
  · have hsplit : ¬(env.debuggingEnabled = true ∧
        env.debugExtensionSupported = true) := by
      intro hc
      exact hd (by simp [enable_instance_debugging, hc.1, hc.2])
    constructor
    · constructor
      · intro heq
        exfalso
        have hlen := congrArg List.length heq
        simp [effectiveExtensions, hd] at hlen
      · intro hc
        exact absurd hc hsplit
    · intro _
      simp [effectiveExtensions, hd]

/-- C8 witness: with the toggle off the requested list is unchanged; with
toggle on and extension supported, the name is appended. -/
theorem extensions_append_iff_witness :
    effectiveExtensions envNoDebug ["VK_KHR_surface"] = ["VK_KHR_surface"] :=
  (extensions_append_iff envNoDebug ["VK_KHR_surface"]).2 (by decide)

/-- C3: with diagnostics enabled and the debug extension supported, an
invalid DebugReportAttachment never prevents the builder from becoming
valid: the attachment is discarded (`debug_report_` is not retained) and
`IsValid()` is still true. -/
theorem debug_report_failure_nonfatal (env : VulkanEnv) (name : String)
    (exts : List String) (appv apiv : Nat) (i : Handle)
    (hd : env.debuggingEnabled = true)
    (he : env.debugExtensionSupported = true)
    (hr : env.debugReportValid = false)
    (hc : env.createInstance (effectiveExtensions env exts) = some i)
    (hp : env.setupInstanceProcAddresses i = true) :
    (VulkanApplication.create env name exts appv apiv).IsValid = true
    ∧ (VulkanApplication.create env name exts appv
        apiv).debug_report_ = false := by
  rw [create_eq_of_success env name exts appv apiv i hc hp]
  exact ⟨rfl, by simp [hr]⟩

/-- C3 witness: in `envOk` diagnostics are on and supported, the debug
report is invalid, and the builder is still valid with no attachment. -/
theorem debug_report_failure_nonfatal_witness :
    (VulkanApplication.create envOk "app" [] 1 2).IsValid = true
    ∧ (VulkanApplication.create envOk "app" [] 1 2).debug_report_ = false :=
  debug_report_failure_nonfatal envOk "app" [] 1 2 7 rfl rfl rfl rfl rfl

/-- C4: when instance creation succeeds but proc-address resolution fails,
the builder is invalid, the created handle is not wrapped in the owning
Scoped Handle (which stays null), and the builder's destructor therefore
issues no destroy-instance call. -/
theorem procFail_no_wrap_no_destroy (env : VulkanEnv) (name : String)
    (exts : List String) (appv apiv : Nat) (i : Handle)
    (hc : env.createInstance (effectiveExtensions env exts) = some i)
    (hp : env.setupInstanceProcAddresses i = false) :
    (VulkanApplication.create env name exts appv apiv).IsValid = false
    ∧ (VulkanApplication.create env name exts appv apiv).instance_ =
        nullHandle
    ∧ ((VulkanApplication.create env name exts appv
          apiv).instance_).destroyCalls = 0 := by
  rw [create_eq_of_procFail env name exts appv apiv i hc hp]
  exact ⟨rfl, rfl, by simp [nullHandle, VulkanHandle.destroyCalls]⟩

/-- C4 witness: in `envProcFail` the instance (handle 7) is created but
resolution fails; the builder is invalid, holds the null handle, and its
destruction performs no release. -/
theorem procFail_no_wrap_no_destroy_witness :
    (VulkanApplication.create envProcFail "app" [] 1 2).IsValid = false
    ∧ (VulkanApplication.create envProcFail "app" [] 1 2).instance_ =
        nullHandle
    ∧ ((VulkanApplication.create envProcFail "app" [] 1
          2).instance_).destroyCalls = 0 :=
  procFail_no_wrap_no_destroy envProcFail "app" [] 1 2 7 rfl rfl

/-- Helper: transferring out of an already-cleared Scoped Handle only ever
yields the null sentinel and ends on the cleared state. -/
theorem transferSeq_null (n : Nat) :
    transferSeq ⟨0⟩ n = (List.replicate n 0, (⟨0⟩ : VulkanHandle)) := by
  induction n with
  | zero => rfl
  | succ n ih =>
    simp [transferSeq, VulkanHandle.ReleaseOwnership, ih,
      List.replicate_succ]

/-- Helper: filtering the nonzero entries out of a run of nulls leaves
nothing. -/
theorem filter_replicate_zero (n : Nat) :
    (List.replicate n (0 : Nat)).filter (fun r => r != 0) = [] := by
  induction n with
  | zero => rfl
  | succ n ih =>
    rw [List.replicate_succ, List.filter_cons]
    simp [ih]

/-- Helper: a Scoped Handle holding a real resource is released exactly
once across any number of ownership transfers followed by destruction. -/
theorem totalReleases_eq_one (h : VulkanHandle) (hnz : h.handle ≠ 0)
    (k : Nat) : totalReleases h k = 1 := by
  cases k with
  | zero =>
    simp [totalReleases, transferSeq, VulkanHandle.destroyCalls, hnz]
  | succ n =>
    simp [totalReleases, transferSeq, VulkanHandle.ReleaseOwnership,
      transferSeq_null, filter_replicate_zero, VulkanHandle.destroyCalls,
      List.filter_cons, hnz]

/-- Helper: no Scoped Handle is ever released more than once, whatever
sequence of transfers precedes destruction. -/
theorem totalReleases_le_one (h : VulkanHandle) (k : Nat) :
    totalReleases h k ≤ 1 := by
  by_cases hz : h.handle = 0
  · obtain ⟨v⟩ := h
    simp only at hz
    subst hz
    cases k with
    | zero =>
      simp [totalReleases, transferSeq, VulkanHandle.destroyCalls]
    | succ n =>
      simp [totalReleases, transferSeq, VulkanHandle.ReleaseOwnership,
        transferSeq_null, filter_replicate_zero,
        VulkanHandle.destroyCalls, List.filter_cons]
  · exact le_of_eq (totalReleases_eq_one h hz k)

/-- C5 counterexample: a builder whose instance creation failed holds the
null sentinel; it is never transferred, yet its destruction performs zero
release calls, not exactly one — so the claim does not hold for every
builder, only for builders owning a real instance handle. -/
theorem release_zero_on_invalid_builder :
    ((VulkanApplication.create envCreateFail "app" [] 1
        2).instance_).destroyCalls = 0
    ∧ totalReleases (VulkanApplication.create envCreateFail "app" [] 1
        2).instance_ 0 = 0 := by
  decide

/-- C5 (amended): for a builder owning a real instance handle, transferring
ownership clears the builder (its destruction performs no release) while
the external owner performs the single release; never transferring makes
the builder's destruction perform the single release; and across any
sequence of transfers plus destruction the resource is released exactly
once — and for every Scoped Handle whatsoever, never twice. -/
theorem release_exactly_once (app : VulkanApplication)
    (hnz : app.instance_.handle ≠ 0) :
    ((app.ReleaseInstanceOwnership).instance_).destroyCalls = 0
    ∧ totalReleases app.instance_ 1 = 1
    ∧ totalReleases app.instance_ 0 = 1
    ∧ (∀ k, totalReleases app.instance_ k = 1)
    ∧ (∀ h k, totalReleases h k ≤ 1) := by
  refine ⟨?_, totalReleases_eq_one _ hnz 1, totalReleases_eq_one _ hnz 0,
    totalReleases_eq_one _ hnz, totalReleases_le_one⟩
  simp [VulkanApplication.ReleaseInstanceOwnership,
    VulkanHandle.ReleaseOwnership, VulkanHandle.destroyCalls]

/-- C5 witness: the builder made from `envOk` holds handle 7; after one
transfer its destruction releases nothing and the total release count over
transfer-then-destroy is exactly one. -/
theorem release_exactly_once_witness :
    (((VulkanApplication.create envOk "app" [] 1
        2).ReleaseInstanceOwnership).instance_).destroyCalls = 0
    ∧ totalReleases (VulkanApplication.create envOk "app" [] 1
        2).instance_ 1 = 1 :=
  ⟨(release_exactly_once (VulkanApplication.create envOk "app" [] 1 2)
      (by decide)).1,
   (release_exactly_once (VulkanApplication.create envOk "app" [] 1 2)
      (by decide)).2.1⟩

/-- C6: on an invalid builder `GetPhysicalDevices()` returns the empty
sequence and performs zero enumeration calls. -/
theorem invalid_no_enumeration (app : VulkanApplication) (env : VulkanEnv)
    (h : app.IsValid = false) :
    app.GetPhysicalDevicesTraced env = ([], 0) := by
  simp [VulkanApplication.GetPhysicalDevicesTraced, h]

/-- C6 witness: the builder made from a failing create call is invalid and
enumerates nothing. -/
theorem invalid_no_enumeration_witness :
    (VulkanApplication.create envCreateFail "app" [] 1
        2).GetPhysicalDevicesTraced envCreateFail = ([], 0) :=
  invalid_no_enumeration (VulkanApplication.create envCreateFail "app" [] 1 2)
    envCreateFail rfl

/-- C7: on a valid builder `GetPhysicalDevices()` is empty when the count
enumeration call fails, when it reports zero devices, or when the fill
enumeration call fails; when both calls succeed and the fill call writes
the reported number of handles, the result is exactly those handles in the
order the enumeration produced them. -/
theorem getPhysicalDevices_cases (app : VulkanApplication)
    (env : VulkanEnv) (hv : app.IsValid = true) :
    (env.enumerate1 = none → app.GetPhysicalDevices env = [])
    ∧ (env.enumerate1 = some 0 → app.GetPhysicalDevices env = [])
    ∧ (∀ c, env.enumerate1 = some c → c ≠ 0 → env.enumerate2 c = none →
        app.GetPhysicalDevices env = [])
    ∧ (∀ c ds, env.enumerate1 = some c → c ≠ 0 →
        env.enumerate2 c = some ds → ds.length = c →
        app.GetPhysicalDevices env = ds) := by
  refine ⟨fun h1 => ?_, fun h1 => ?_, fun c h1 hc h2 => ?_,
    fun c ds h1 hc h2 hlen => ?_⟩
  · simp [VulkanApplication.GetPhysicalDevices,
      VulkanApplication.GetPhysicalDevicesTraced, hv, h1]
  · simp [VulkanApplication.GetPhysicalDevices,
      VulkanApplication.GetPhysicalDevicesTraced, hv, h1]
  · simp [VulkanApplication.GetPhysicalDevices,
      VulkanApplication.GetPhysicalDevicesTraced, hv, h1, hc, h2]
  · subst hlen
    simp [VulkanApplication.GetPhysicalDevices,
      VulkanApplication.GetPhysicalDevicesTraced, hv, h1, hc, h2]

/-- C7 witness: in `envOk` the three enumerated handles come back in
enumeration order. -/
theorem getPhysicalDevices_cases_witness :
    (VulkanApplication.create envOk "app" [] 1 2).GetPhysicalDevices envOk =
      [10, 20, 30] :=
  (getPhysicalDevices_cases (VulkanApplication.create envOk "app" [] 1 2)
      envOk rfl).2.2.2 3 [10, 20, 30] rfl (by decide) rfl rfl

/-- C10: on a valid builder, when both enumeration calls succeed with a
nonzero reported count, the returned sequence has length exactly the count
reported by the first call, even if the fill call wrote a different number
of handles (updating the count variable). -/
theorem getPhysicalDevices_length (app : VulkanApplication)
    (env : VulkanEnv) (c : Nat) (ds : List Handle)
    (hv : app.IsValid = true) (h1 : env.enumerate1 = some c) (hc : c ≠ 0)
    (h2 : env.enumerate2 c = some ds) :
    (app.GetPhysicalDevices env).length = c := by
  simp only [VulkanApplication.GetPhysicalDevices,
    VulkanApplication.GetPhysicalDevicesTraced, hv, h1, hc, h2,
    Bool.not_true, Bool.false_eq_true, if_false, if_neg,
    List.length_append, List.length_take, List.length_replicate]
  omega

/-- C10 witness: in `envMismatch` the count call reports 3, the fill call
writes only 2 handles, and the returned vector still has length 3. -/
theorem getPhysicalDevices_length_witness :
    ((VulkanApplication.create envMismatch "app" [] 1
        2).GetPhysicalDevices envMismatch).length = 3 :=
  getPhysicalDevices_length
    (VulkanApplication.create envMismatch "app" [] 1 2) envMismatch 3
    [10, 20] rfl rfl (by decide) rfl

/-- Helper: the selector loop returns the first handle satisfying the
validity oracle and constructs a device exactly for the handles up to and
including that first valid one, in order. -/
theorem acquireLoop_eq (env : VulkanEnv) (l : List Handle) :
    acquireLoop env l =
      (l.find? env.deviceValid,
       l.takeWhile (fun d => !env.deviceValid d) ++
         (l.find? env.deviceValid).toList) := by
  induction l with
  | nil => rfl
  | cons d rest ih =>
    by_cases hd : env.deviceValid d
    · simp [acquireLoop, hd, List.find?, List.takeWhile]
    · have hd' : env.deviceValid d = false := by simpa using hd
      simp [acquireLoop, hd', List.find?_cons_of_neg, List.takeWhile, ih]

/-- C2: the selector returns the first physical device in enumeration
order whose LogicalDevice is valid, constructing LogicalDevices only for
the handles up to and including that first valid one; with no valid device
(in particular with zero devices) it returns none. -/
theorem acquire_first_compatible (app : VulkanApplication)
    (env : VulkanEnv) :
    app.AcquireFirstCompatibleLogicalDevice env =
      (app.GetPhysicalDevices env).find? env.deviceValid
    ∧ app.AcquireConstructedDevices env =
        (app.GetPhysicalDevices env).takeWhile (fun d => !env.deviceValid d)
          ++ ((app.GetPhysicalDevices env).find? env.deviceValid).toList
    ∧ (app.GetPhysicalDevices env = [] →
        app.AcquireFirstCompatibleLogicalDevice env = none) := by
  refine ⟨?_, ?_, fun hempty => ?_⟩
  · rw [VulkanApplication.AcquireFirstCompatibleLogicalDevice,
      acquireLoop_eq]
  · rw [VulkanApplication.AcquireConstructedDevices, acquireLoop_eq]
  · rw [VulkanApplication.AcquireFirstCompatibleLogicalDevice, hempty]
    rfl

/-- C2 witness: in `envOk` only handle 20 (the second of three) is valid:
the selector returns it and constructs devices exactly for 10 and 20,
never for 30. -/
theorem acquire_first_compatible_witness :
    (VulkanApplication.create envOk "app" [] 1
        2).AcquireFirstCompatibleLogicalDevice envOk = some 20
    ∧ (VulkanApplication.create envOk "app" [] 1
        2).AcquireConstructedDevices envOk = [10, 20] :=
  ⟨((acquire_first_compatible (VulkanApplication.create envOk "app" [] 1 2)
        envOk).1).trans (by decide),
   ((acquire_first_compatible (VulkanApplication.create envOk "app" [] 1 2)
        envOk).2.1).trans (by decide)⟩

end vulkan
